import Mathlib

/-!
Shallow embedding of `src/share/vm/memory/metaspaceCounters.cpp` (HotSpot
metaspace performance counters) and verification of its specification.

The unit under verification publishes metaspace utilization statistics into a
performance-counter registry.  Its external collaborators — the allocator
query interface (`MetaspaceAux`) and the counter registry
(`PerfDataManager` / `PerfVariable`) — are not part of the source tree and
are modelled from the specification, as marked on each definition.
Debug-build semantics are used for `assert`: a violated assertion is an
observable fatal error rather than undefined behavior.
-/

/-- Modulus of the C `size_t` type on the 64-bit targets this file models;
`size_t` addition in the source wraps modulo this value. -/
def size_t_mod : Nat := 2 ^ 64

/-- Modelled from the spec: the two externally owned configuration gates read
by this unit, `UsePerfData` ("performance data collection enabled") and
`UseCompressedKlassPointers` ("compressed class pointers in use"). -/
structure Flags where
  UsePerfData : Bool
  UseCompressedKlassPointers : Bool

/-- Modelled from the spec: a point-in-time snapshot of the allocator
collaborator (`MetaspaceAux`), one field per aggregate query consumed by the
unit.  The `_class` fields are the same queries scoped to the
compressed-class region classifier (`_class_type` in the source); the
relationship between the scoped and unscoped figures is internal to the
allocator and left unconstrained. -/
structure MetaspaceAuxState where
  allocated_capacity_bytes : Nat
  free_bytes : Nat
  free_chunks_total_in_bytes : Nat
  reserved_in_bytes : Nat
  allocated_used_bytes : Nat
  min_chunk_size : Nat
  allocated_capacity_bytes_class : Nat
  free_bytes_class : Nat
  free_chunks_total_in_bytes_class : Nat
  reserved_in_bytes_class : Nat
  allocated_used_bytes_class : Nat

/-- Modelled from the spec: one published registry value.  `isConstant`
records whether it was registered via `create_constant` (immutable) or
`create_variable` (mutable). -/
structure PerfEntry where
  isConstant : Bool
  value : Nat

/-- Modelled from the spec: the performance-counter registry collaborator.
`entries` are the published named values (most recently created first);
`freeSlots` is the remaining allocation budget — registration fails exactly
when the registry cannot allocate a new entry (resource exhaustion). -/
structure PerfRegistry where
  entries : List (String × PerfEntry)
  freeSlots : Nat

/-- Modelled from the spec: registering a named value consumes one registry
slot and fails (`none`) when no slot is left. -/
def PerfRegistry.create_entry (r : PerfRegistry) (path : String) (isConst : Bool)
    (v : Nat) : Option PerfRegistry :=
  if r.freeSlots = 0 then none
  else some ⟨(path, ⟨isConst, v⟩) :: r.entries, r.freeSlots - 1⟩

/-- Modelled from the spec: `PerfVariable::set_value` through a handle — the
handle is identified with the published path; every entry under that path is
overwritten with the new value. -/
def PerfRegistry.set_value (r : PerfRegistry) (path : String) (v : Nat) : PerfRegistry :=
  ⟨r.entries.map (fun e => if e.1 = path then (e.1, ⟨e.2.isConstant, v⟩) else e),
   r.freeSlots⟩

/-- Modelled from the spec: what an external reader of the registry observes
under a published name. -/
def PerfRegistry.lookupValue (r : PerfRegistry) (path : String) : Option Nat :=
  (r.entries.find? (fun e => e.1 == path)).map (fun e => e.2.value)

/-- Modelled from the spec: `PerfDataManager::counter_name` — published names
are `"<namespace>.<metric>"`. -/
def PerfDataManager.counter_name (ns nm : String) : String := ns ++ "." ++ nm

/-- Embedding of the `MetaspacePerfCounters` object: it retains handles to
the three mutable counters (`_capacity`, `_used`, `_max_capacity`), in source
declaration order; the `minCapacity` constant has no handle. -/
structure MetaspacePerfCounters where
  _capacity : String
  _used : String
  _max_capacity : String

/-- Errors observable from the unit: a violated `assert` (debug-build fatal)
or a registry allocation failure. -/
inductive VMErr where
  | assertFailed : String → VMErr
  | resourceExhausted : VMErr

/-- The process-wide state the unit touches: the configuration gates, the
allocator snapshot, the registry, and the two static counter-set pointers
(`MetaspaceCounters::_perf_counters` and
`CompressedClassSpaceCounters::_perf_counters`, both initially `NULL`). -/
structure VMState where
  flags : Flags
  aux : MetaspaceAuxState
  registry : PerfRegistry
  metaspace_perf_counters : Option MetaspacePerfCounters
  ccs_perf_counters : Option MetaspacePerfCounters

/-- Outcome of a call into the unit: a new state, or an error together with
the state at the failure point (no cleanup is performed on failure). -/
inductive VMResult where
  | ok : VMState → VMResult
  | err : VMErr → VMState → VMResult

/-- Registry component of an outcome, success or failure alike. -/
def VMResult.registryOf : VMResult → PerfRegistry
  | .ok s => s.registry
  | .err _ s => s.registry

/-- Outcome of constructing a `MetaspacePerfCounters` set: the object and the
registry after its four registrations, or an error with the registry as left
at the failure point. -/
inductive CtorResult where
  | ok : MetaspacePerfCounters → PerfRegistry → CtorResult
  | err : VMErr → PerfRegistry → CtorResult

/-- Embedding of `MetaspacePerfCounters::MetaspacePerfCounters`: registers
the `minCapacity` constant and the `capacity`, `maxCapacity`, `used`
variables under `ns`, in source order.  Registry failure is propagated (as
the spec states) with no retry and no cleanup of already-registered
entries. -/
def MetaspacePerfCounters.construct (ns : String)
    (min_capacity curr_capacity max_capacity used : Nat)
    (r : PerfRegistry) : CtorResult :=
  match r.create_entry (PerfDataManager.counter_name ns "minCapacity") true min_capacity with
  | none => .err .resourceExhausted r
  | some r1 =>
    match r1.create_entry (PerfDataManager.counter_name ns "capacity") false curr_capacity with
    | none => .err .resourceExhausted r1
    | some r2 =>
      match r2.create_entry (PerfDataManager.counter_name ns "maxCapacity") false max_capacity with
      | none => .err .resourceExhausted r2
      | some r3 =>
        match r3.create_entry (PerfDataManager.counter_name ns "used") false used with
        | none => .err .resourceExhausted r3
        | some r4 =>
          .ok ⟨PerfDataManager.counter_name ns "capacity",
               PerfDataManager.counter_name ns "used",
               PerfDataManager.counter_name ns "maxCapacity"⟩ r4

/-- Embedding of `MetaspacePerfCounters::update`: overwrites the three
mutable counters, in source order (`_capacity`, `_max_capacity`, `_used`),
with no validation or clamping. -/
def MetaspacePerfCounters.update (pc : MetaspacePerfCounters)
    (capacity max_capacity used : Nat) (r : PerfRegistry) : PerfRegistry :=
  ((r.set_value pc._capacity capacity).set_value pc._max_capacity max_capacity).set_value
    pc._used used

/-- Embedding of `MetaspaceCounters::calculate_capacity`: the three-term
`size_t` sum over the general region. -/
def MetaspaceCounters.calculate_capacity (aux : MetaspaceAuxState) : Nat :=
  (aux.allocated_capacity_bytes + aux.free_bytes + aux.free_chunks_total_in_bytes)
    % size_t_mod

/-- Embedding of `MetaspaceCounters::initialize_performance_counters`. -/
def MetaspaceCounters.initialize_performance_counters (st : VMState) : VMResult :=
  if st.flags.UsePerfData then
    match st.metaspace_perf_counters with
    | some _ => .err (.assertFailed "Should only be initialized once") st
    | none =>
      let min_capacity := st.aux.min_chunk_size
      let capacity := MetaspaceCounters.calculate_capacity st.aux
      let max_capacity := st.aux.reserved_in_bytes
      let used := st.aux.allocated_used_bytes
      match MetaspacePerfCounters.construct "metaspace" min_capacity capacity
          max_capacity used st.registry with
      | .ok pc r2 => .ok { st with registry := r2, metaspace_perf_counters := some pc }
      | .err e r2 => .err e { st with registry := r2 }
  else .ok st

/-- Embedding of `MetaspaceCounters::update_performance_counters`. -/
def MetaspaceCounters.update_performance_counters (st : VMState) : VMResult :=
  if st.flags.UsePerfData then
    match st.metaspace_perf_counters with
    | none => .err (.assertFailed "Should be initialized") st
    | some pc =>
      let capacity := MetaspaceCounters.calculate_capacity st.aux
      let max_capacity := st.aux.reserved_in_bytes
      let used := st.aux.allocated_used_bytes
      .ok { st with registry := pc.update capacity max_capacity used st.registry }
  else .ok st

/-- Embedding of `CompressedClassSpaceCounters::calculate_capacity`: the same
three-term sum scoped to the compressed-class region classifier. -/
def CompressedClassSpaceCounters.calculate_capacity (aux : MetaspaceAuxState) : Nat :=
  (aux.allocated_capacity_bytes_class + aux.free_bytes_class
      + aux.free_chunks_total_in_bytes_class)
    % size_t_mod

/-- Embedding of `CompressedClassSpaceCounters::update_performance_counters`:
gated on both `UsePerfData` and `UseCompressedKlassPointers`. -/
def CompressedClassSpaceCounters.update_performance_counters (st : VMState) : VMResult :=
  if st.flags.UsePerfData && st.flags.UseCompressedKlassPointers then
    match st.ccs_perf_counters with
    | none => .err (.assertFailed "Should be initialized") st
    | some pc =>
      let capacity := CompressedClassSpaceCounters.calculate_capacity st.aux
      let max_capacity := st.aux.reserved_in_bytes_class
      let used := st.aux.allocated_used_bytes_class
      .ok { st with registry := pc.update capacity max_capacity used st.registry }
  else .ok st

/-- Embedding of
`CompressedClassSpaceCounters::initialize_performance_counters`: under
`UsePerfData`, asserts single initialization, then either publishes the real
compressed-class aggregates or, when `UseCompressedKlassPointers` is off, an
all-zero counter set under the same namespace. -/
def CompressedClassSpaceCounters.initialize_performance_counters (st : VMState) : VMResult :=
  if st.flags.UsePerfData then
    match st.ccs_perf_counters with
    | some _ => .err (.assertFailed "Should only be initialized once") st
    | none =>
      if st.flags.UseCompressedKlassPointers then
        let min_capacity := st.aux.min_chunk_size
        let capacity := CompressedClassSpaceCounters.calculate_capacity st.aux
        let max_capacity := st.aux.reserved_in_bytes_class
        let used := st.aux.allocated_used_bytes_class
        match MetaspacePerfCounters.construct "compressedclassspace" min_capacity capacity
            max_capacity used st.registry with
        | .ok pc r2 => .ok { st with registry := r2, ccs_perf_counters := some pc }
        | .err e r2 => .err e { st with registry := r2 }
      else
        match MetaspacePerfCounters.construct "compressedclassspace" 0 0 0 0 st.registry with
        | .ok pc r2 => .ok { st with registry := r2, ccs_perf_counters := some pc }
        | .err e r2 => .err e { st with registry := r2 }
  else .ok st

/-- A sequence of `MetaspaceCounters::update_performance_counters` calls,
the allocator free to move to a new state before each call. -/
def MetaspaceCounters.run_updates (st : VMState) : List MetaspaceAuxState → VMResult
  | [] => .ok st
  | a :: rest =>
    match MetaspaceCounters.update_performance_counters { st with aux := a } with
    | .ok st1 => MetaspaceCounters.run_updates st1 rest
    | .err e s => .err e s

/-- Canonical counter set produced by general-region initialization. -/
def MetaspaceCounters.standard_set : MetaspacePerfCounters :=
  ⟨"metaspace.capacity", "metaspace.used", "metaspace.maxCapacity"⟩

/-- Canonical counter set produced by compressed-class initialization. -/
def CompressedClassSpaceCounters.standard_set : MetaspacePerfCounters :=
  ⟨"compressedclassspace.capacity", "compressedclassspace.used",
   "compressedclassspace.maxCapacity"⟩

/-- A concrete allocator snapshot used to exercise the theorems. -/
def auxA : MetaspaceAuxState := ⟨100, 50, 25, 700, 60, 8, 7, 8, 9, 300, 20⟩

/-- A second concrete allocator snapshot, differing from `auxA` everywhere. -/
def auxB : MetaspaceAuxState := ⟨41, 42, 43, 44, 45, 46, 47, 48, 49, 50, 51⟩

/-- An empty registry with ten free slots. -/
def regA : PerfRegistry := ⟨[], 10⟩

/-- Fresh state, both gates on, nothing initialized yet. -/
def stA : VMState := ⟨⟨true, true⟩, auxA, regA, none, none⟩

/-- Fresh state with performance data collection disabled. -/
def stOff : VMState := ⟨⟨false, true⟩, auxA, regA, none, none⟩

/-- Fresh state with compressed class pointers disabled. -/
def stNoCcs : VMState := ⟨⟨true, false⟩, auxA, regA, none, none⟩

/-- Fresh state whose registry has only two free slots. -/
def stTight : VMState := ⟨⟨true, true⟩, auxA, ⟨[], 2⟩, none, none⟩

/-- State in which both counter sets are already initialized. -/
def stBoth : VMState :=
  ⟨⟨true, true⟩, auxA, regA, some MetaspaceCounters.standard_set,
   some CompressedClassSpaceCounters.standard_set⟩

theorem PerfRegistry.lookupValue_set_value (r : PerfRegistry) (p q : String) (v : Nat) :
    (r.set_value p v).lookupValue q =
      if q = p then (r.lookupValue q).map (fun _ => v) else r.lookupValue q := by
  obtain ⟨es, fs⟩ := r
  simp only [PerfRegistry.set_value, PerfRegistry.lookupValue, List.find?_map]
  have hpred : ((fun e : String × PerfEntry => e.1 == q)
        ∘ fun e : String × PerfEntry =>
          if e.1 = p then (e.1, ⟨e.2.isConstant, v⟩) else e)
      = fun e : String × PerfEntry => e.1 == q := by
    funext e
    by_cases h : e.1 = p <;> simp [Function.comp, h]
  rw [hpred]
  cases hfind : List.find? (fun e : String × PerfEntry => e.1 == q) es with
  | none => by_cases h : q = p <;> simp [h]
  | some a =>
    have ha : a.1 = q := by
      have := List.find?_some hfind
      simpa using this
    by_cases h : q = p
    · simp [h, if_pos (ha.trans h)]
    · have hap : ¬a.1 = p := fun hc => h (ha ▸ hc)
      simp [h, hap]

theorem MetaspacePerfCounters.construct_ok (ns : String) (mn c mx u : Nat)
    (r : PerfRegistry) (h : 4 ≤ r.freeSlots) :
    MetaspacePerfCounters.construct ns mn c mx u r =
      .ok ⟨PerfDataManager.counter_name ns "capacity",
           PerfDataManager.counter_name ns "used",
           PerfDataManager.counter_name ns "maxCapacity"⟩
        ⟨(PerfDataManager.counter_name ns "used", ⟨false, u⟩) ::
         (PerfDataManager.counter_name ns "maxCapacity", ⟨false, mx⟩) ::
         (PerfDataManager.counter_name ns "capacity", ⟨false, c⟩) ::
         (PerfDataManager.counter_name ns "minCapacity", ⟨true, mn⟩) :: r.entries,
         r.freeSlots - 4⟩ := by
  obtain ⟨es, fs⟩ := r
  have h4 : 4 ≤ fs := h
  obtain ⟨k, rfl⟩ : ∃ k, fs = k + 4 := ⟨fs - 4, by omega⟩
  simp [MetaspacePerfCounters.construct, PerfRegistry.create_entry]

theorem MetaspaceCounters.init_ok (st : VMState)
    (h1 : st.flags.UsePerfData = true) (h2 : st.metaspace_perf_counters = none)
    (h3 : 4 ≤ st.registry.freeSlots) :
    MetaspaceCounters.initialize_performance_counters st =
      .ok { st with
            registry :=
              ⟨("metaspace.used", ⟨false, st.aux.allocated_used_bytes⟩) ::
               ("metaspace.maxCapacity", ⟨false, st.aux.reserved_in_bytes⟩) ::
               ("metaspace.capacity", ⟨false, MetaspaceCounters.calculate_capacity st.aux⟩) ::
               ("metaspace.minCapacity", ⟨true, st.aux.min_chunk_size⟩) :: st.registry.entries,
               st.registry.freeSlots - 4⟩,
            metaspace_perf_counters := some MetaspaceCounters.standard_set } := by
  simp only [MetaspaceCounters.initialize_performance_counters, h1, h2, if_true]
  rw [MetaspacePerfCounters.construct_ok _ _ _ _ _ st.registry h3]
  rfl

theorem CompressedClassSpaceCounters.init_ok_disabled (st : VMState)
    (h1 : st.flags.UsePerfData = true) (h2 : st.flags.UseCompressedKlassPointers = false)
    (h3 : st.ccs_perf_counters = none) (h4 : 4 ≤ st.registry.freeSlots) :
    CompressedClassSpaceCounters.initialize_performance_counters st =
      .ok { st with
            registry :=
              ⟨("compressedclassspace.used", ⟨false, 0⟩) ::
               ("compressedclassspace.maxCapacity", ⟨false, 0⟩) ::
               ("compressedclassspace.capacity", ⟨false, 0⟩) ::
               ("compressedclassspace.minCapacity", ⟨true, 0⟩) :: st.registry.entries,
               st.registry.freeSlots - 4⟩,
            ccs_perf_counters := some CompressedClassSpaceCounters.standard_set } := by
  simp only [CompressedClassSpaceCounters.initialize_performance_counters, h1, h2, h3,
    if_true, if_false, Bool.false_eq_true]
  rw [MetaspacePerfCounters.construct_ok _ _ _ _ _ st.registry h4]
  rfl

theorem MetaspacePerfCounters.construct_err (ns : String) (mn c mx u : Nat)
    (r : PerfRegistry) (h : r.freeSlots < 4) :
    ∃ r2, MetaspacePerfCounters.construct ns mn c mx u r = .err .resourceExhausted r2
      ∧ r2.entries.length = r.freeSlots + r.entries.length := by
  obtain ⟨es, fs⟩ := r
  have h4 : fs < 4 := h
  interval_cases fs
  · exact ⟨⟨es, 0⟩, rfl, by simp⟩
  · exact ⟨⟨(PerfDataManager.counter_name ns "minCapacity", ⟨true, mn⟩) :: es, 0⟩,
      rfl, by simp [List.length_cons]; omega⟩
  · exact ⟨⟨(PerfDataManager.counter_name ns "capacity", ⟨false, c⟩) ::
        (PerfDataManager.counter_name ns "minCapacity", ⟨true, mn⟩) :: es, 0⟩,
      rfl, by simp [List.length_cons]; omega⟩
  · exact ⟨⟨(PerfDataManager.counter_name ns "maxCapacity", ⟨false, mx⟩) ::
        (PerfDataManager.counter_name ns "capacity", ⟨false, c⟩) ::
        (PerfDataManager.counter_name ns "minCapacity", ⟨true, mn⟩) :: es, 0⟩,
      rfl, by simp [List.length_cons]; omega⟩

/-- Claim C1: `MetaspaceCounters::calculate_capacity` returns exactly
`allocated_capacity_bytes() + free_bytes() + free_chunks_total_in_bytes()`,
and `CompressedClassSpaceCounters::calculate_capacity` returns the same
three-term sum with each query scoped to the compressed-class region
classifier.  Both are pure functions of the allocator snapshot alone (they
are functions of `aux` by construction, so they have no side effects); the
equalities hold whenever the sums fit in `size_t`. -/
theorem C1_calculate_capacity_is_three_term_sum (aux : MetaspaceAuxState)
    (h1 : aux.allocated_capacity_bytes + aux.free_bytes
        + aux.free_chunks_total_in_bytes < size_t_mod)
    (h2 : aux.allocated_capacity_bytes_class + aux.free_bytes_class
        + aux.free_chunks_total_in_bytes_class < size_t_mod) :
    MetaspaceCounters.calculate_capacity aux
        = aux.allocated_capacity_bytes + aux.free_bytes + aux.free_chunks_total_in_bytes
      ∧ CompressedClassSpaceCounters.calculate_capacity aux
        = aux.allocated_capacity_bytes_class + aux.free_bytes_class
            + aux.free_chunks_total_in_bytes_class :=
  ⟨Nat.mod_eq_of_lt h1, Nat.mod_eq_of_lt h2⟩

theorem C1_calculate_capacity_is_three_term_sum_witness :
    (auxA.allocated_capacity_bytes + auxA.free_bytes
        + auxA.free_chunks_total_in_bytes < size_t_mod)
    ∧ (auxA.allocated_capacity_bytes_class + auxA.free_bytes_class
        + auxA.free_chunks_total_in_bytes_class < size_t_mod)
    ∧ (MetaspaceCounters.calculate_capacity auxA
        = auxA.allocated_capacity_bytes + auxA.free_bytes + auxA.free_chunks_total_in_bytes
      ∧ CompressedClassSpaceCounters.calculate_capacity auxA
        = auxA.allocated_capacity_bytes_class + auxA.free_bytes_class
            + auxA.free_chunks_total_in_bytes_class) :=
  ⟨by decide, by decide,
   C1_calculate_capacity_is_three_term_sum auxA (by decide) (by decide)⟩

/-- Claim C2 (registry modelled from the spec): when the registry cannot
allocate a new published entry during construction of the counter set, the
failure is propagated to the caller of `initialize_performance_counters`
as a resource-exhaustion error, with no retry and no cleanup: the entries
registered before the failure remain in the registry (their number is the
number of slots that were available) and the counter-set pointer is left
unset. -/
theorem C2_registry_exhaustion_propagates (st : VMState)
    (h1 : st.flags.UsePerfData = true) (h2 : st.metaspace_perf_counters = none)
    (h3 : st.registry.freeSlots < 4) :
    ∃ r2, MetaspaceCounters.initialize_performance_counters st
        = .err .resourceExhausted { st with registry := r2 }
      ∧ r2.entries.length = st.registry.freeSlots + st.registry.entries.length := by
  obtain ⟨r2, hc, hlen⟩ := MetaspacePerfCounters.construct_err "metaspace"
    st.aux.min_chunk_size (MetaspaceCounters.calculate_capacity st.aux)
    st.aux.reserved_in_bytes st.aux.allocated_used_bytes st.registry h3
  refine ⟨r2, ?_, hlen⟩
  simp only [MetaspaceCounters.initialize_performance_counters, h1, h2, if_true]
  rw [hc]

theorem C2_registry_exhaustion_propagates_witness :
    stTight.flags.UsePerfData = true
    ∧ stTight.metaspace_perf_counters = none
    ∧ stTight.registry.freeSlots < 4
    ∧ (∃ r2, MetaspaceCounters.initialize_performance_counters stTight
          = .err .resourceExhausted { stTight with registry := r2 }
        ∧ r2.entries.length
            = stTight.registry.freeSlots + stTight.registry.entries.length) :=
  ⟨rfl, rfl, by decide,
   C2_registry_exhaustion_propagates stTight rfl rfl (by decide)⟩

/-- Claim C4: when `UsePerfData` is false, every public entry point of both
components is a silent no-op — the state (registry included) is returned
unchanged and no error is raised. -/
theorem C4_perf_data_disabled_noop (st : VMState)
    (h : st.flags.UsePerfData = false) :
    MetaspaceCounters.initialize_performance_counters st = .ok st
      ∧ MetaspaceCounters.update_performance_counters st = .ok st
      ∧ CompressedClassSpaceCounters.initialize_performance_counters st = .ok st
      ∧ CompressedClassSpaceCounters.update_performance_counters st = .ok st := by
  refine ⟨?_, ?_, ?_, ?_⟩ <;>
    simp [MetaspaceCounters.initialize_performance_counters,
      MetaspaceCounters.update_performance_counters,
      CompressedClassSpaceCounters.initialize_performance_counters,
      CompressedClassSpaceCounters.update_performance_counters, h]

theorem C4_perf_data_disabled_noop_witness :
    stOff.flags.UsePerfData = false
    ∧ (MetaspaceCounters.initialize_performance_counters stOff = .ok stOff
      ∧ MetaspaceCounters.update_performance_counters stOff = .ok stOff
      ∧ CompressedClassSpaceCounters.initialize_performance_counters stOff = .ok stOff
      ∧ CompressedClassSpaceCounters.update_performance_counters stOff = .ok stOff) :=
  ⟨rfl, C4_perf_data_disabled_noop stOff rfl⟩

/-- Claim C7: with performance data enabled (and, for the compressed-class
component, its gate on), calling `update_performance_counters` while the
counter set is still absent fails the "Should be initialized" assertion —
fatal in debug builds — instead of silently writing through a null counter
set; this holds for both components. -/
theorem C7_update_before_initialize_asserts (st : VMState)
    (h1 : st.flags.UsePerfData = true)
    (h2 : st.flags.UseCompressedKlassPointers = true)
    (h3 : st.metaspace_perf_counters = none) (h4 : st.ccs_perf_counters = none) :
    MetaspaceCounters.update_performance_counters st
        = .err (.assertFailed "Should be initialized") st
      ∧ CompressedClassSpaceCounters.update_performance_counters st
        = .err (.assertFailed "Should be initialized") st := by
  constructor <;>
    simp [MetaspaceCounters.update_performance_counters,
      CompressedClassSpaceCounters.update_performance_counters, h1, h2, h3, h4]

theorem C7_update_before_initialize_asserts_witness :
    stA.flags.UsePerfData = true
    ∧ stA.flags.UseCompressedKlassPointers = true
    ∧ stA.metaspace_perf_counters = none
    ∧ stA.ccs_perf_counters = none
    ∧ (MetaspaceCounters.update_performance_counters stA
        = .err (.assertFailed "Should be initialized") stA
      ∧ CompressedClassSpaceCounters.update_performance_counters stA
        = .err (.assertFailed "Should be initialized") stA) :=
  ⟨rfl, rfl, rfl, rfl, C7_update_before_initialize_asserts stA rfl rfl rfl rfl⟩

/-- Claim C8: with performance data enabled, calling
`initialize_performance_counters` when the counter set already exists fails
the "Should only be initialized once" assertion — fatal in debug builds —
for both components, so initialization constructs the counter set at most
once. -/
theorem C8_initialize_twice_asserts (st : VMState) (pc1 pc2 : MetaspacePerfCounters)
    (h1 : st.flags.UsePerfData = true)
    (h2 : st.metaspace_perf_counters = some pc1)
    (h3 : st.ccs_perf_counters = some pc2) :
    MetaspaceCounters.initialize_performance_counters st
        = .err (.assertFailed "Should only be initialized once") st
      ∧ CompressedClassSpaceCounters.initialize_performance_counters st
        = .err (.assertFailed "Should only be initialized once") st := by
  constructor <;>
    simp [MetaspaceCounters.initialize_performance_counters,
      CompressedClassSpaceCounters.initialize_performance_counters, h1, h2, h3]

theorem C8_initialize_twice_asserts_witness :
    stBoth.flags.UsePerfData = true
    ∧ stBoth.metaspace_perf_counters = some MetaspaceCounters.standard_set
    ∧ stBoth.ccs_perf_counters = some CompressedClassSpaceCounters.standard_set
    ∧ (MetaspaceCounters.initialize_performance_counters stBoth
        = .err (.assertFailed "Should only be initialized once") stBoth
      ∧ CompressedClassSpaceCounters.initialize_performance_counters stBoth
        = .err (.assertFailed "Should only be initialized once") stBoth) :=
  ⟨rfl, rfl, rfl,
   C8_initialize_twice_asserts stBoth MetaspaceCounters.standard_set
     CompressedClassSpaceCounters.standard_set rfl rfl rfl⟩

/-- Claim C10: with performance data enabled and compressed-class pointers
disabled, the registry produced by
`CompressedClassSpaceCounters::initialize_performance_counters` is
independent of the allocator state — the disabled branch consults no
allocator query, so any two allocator snapshots lead to identical registry
contents. -/
theorem C10_disabled_init_state_independent (st : VMState)
    (aux1 aux2 : MetaspaceAuxState)
    (h1 : st.flags.UsePerfData = true)
    (h2 : st.flags.UseCompressedKlassPointers = false) :
    (CompressedClassSpaceCounters.initialize_performance_counters
        { st with aux := aux1 }).registryOf
      = (CompressedClassSpaceCounters.initialize_performance_counters
        { st with aux := aux2 }).registryOf := by
  cases hpc : st.ccs_perf_counters with
  | some pc =>
    simp [CompressedClassSpaceCounters.initialize_performance_counters, h1, h2, hpc,
      VMResult.registryOf]
  | none =>
    cases hc : MetaspacePerfCounters.construct "compressedclassspace" 0 0 0 0 st.registry with
    | ok pc r2 =>
      simp [CompressedClassSpaceCounters.initialize_performance_counters, h1, h2, hpc, hc,
        VMResult.registryOf]
    | err e r2 =>
      simp [CompressedClassSpaceCounters.initialize_performance_counters, h1, h2, hpc, hc,
        VMResult.registryOf]

theorem C10_disabled_init_state_independent_witness :
    stNoCcs.flags.UsePerfData = true
    ∧ stNoCcs.flags.UseCompressedKlassPointers = false
    ∧ (CompressedClassSpaceCounters.initialize_performance_counters
          { stNoCcs with aux := auxA }).registryOf
        = (CompressedClassSpaceCounters.initialize_performance_counters
          { stNoCcs with aux := auxB }).registryOf :=
  ⟨rfl, rfl, C10_disabled_init_state_independent stNoCcs auxA auxB rfl rfl⟩

theorem MetaspaceCounters.update_ok (st : VMState) (pc : MetaspacePerfCounters)
    (h1 : st.flags.UsePerfData = true) (h2 : st.metaspace_perf_counters = some pc) :
    MetaspaceCounters.update_performance_counters st =
      .ok { st with
            registry := pc.update (MetaspaceCounters.calculate_capacity st.aux)
              st.aux.reserved_in_bytes st.aux.allocated_used_bytes st.registry } := by
  simp only [MetaspaceCounters.update_performance_counters, h1, h2, if_true]

theorem MetaspaceCounters.run_updates_ok (auxs : List MetaspaceAuxState) :
    ∀ st : VMState, st.flags.UsePerfData = true →
      st.metaspace_perf_counters = some MetaspaceCounters.standard_set →
      ∃ st2, MetaspaceCounters.run_updates st auxs = .ok st2
        ∧ st2.registry.lookupValue "metaspace.minCapacity"
            = st.registry.lookupValue "metaspace.minCapacity" := by
  induction auxs with
  | nil =>
    intro st h1 h2
    exact ⟨st, rfl, rfl⟩
  | cons a rest ih =>
    intro st h1 h2
    obtain ⟨st2, hrun, hmin⟩ := ih
      { st with
        aux := a,
        registry := MetaspacePerfCounters.update MetaspaceCounters.standard_set
          (MetaspaceCounters.calculate_capacity a) a.reserved_in_bytes
          a.allocated_used_bytes st.registry }
      h1 h2
    refine ⟨st2, ?_, ?_⟩
    · have heq : MetaspaceCounters.run_updates st (a :: rest)
          = (match MetaspaceCounters.update_performance_counters { st with aux := a } with
             | .ok s => MetaspaceCounters.run_updates s rest
             | .err e s => VMResult.err e s) := rfl
      rw [heq,
        MetaspaceCounters.update_ok { st with aux := a } MetaspaceCounters.standard_set h1 h2]
      exact hrun
    · rw [hmin]
      simp [MetaspacePerfCounters.update, MetaspaceCounters.standard_set,
        PerfRegistry.lookupValue_set_value]

/-- Claim C3: with performance data enabled and compressed-class pointers
disabled, compressed-class initialization constructs the
`"compressedclassspace"` counter set with all four published values equal to
0, and every subsequent compressed-class update call (while the feature stays
off) is the identity on the state, leaving the values at 0. -/
theorem C3_ccs_disabled_publishes_zeros (st : VMState)
    (h1 : st.flags.UsePerfData = true)
    (h2 : st.flags.UseCompressedKlassPointers = false)
    (h3 : st.ccs_perf_counters = none) (h4 : 4 ≤ st.registry.freeSlots) :
    ∃ st1, CompressedClassSpaceCounters.initialize_performance_counters st = .ok st1
      ∧ st1.registry.lookupValue "compressedclassspace.minCapacity" = some 0
      ∧ st1.registry.lookupValue "compressedclassspace.capacity" = some 0
      ∧ st1.registry.lookupValue "compressedclassspace.maxCapacity" = some 0
      ∧ st1.registry.lookupValue "compressedclassspace.used" = some 0
      ∧ ∀ st2 : VMState, st2.flags.UseCompressedKlassPointers = false →
          CompressedClassSpaceCounters.update_performance_counters st2 = .ok st2 := by
  refine ⟨_, CompressedClassSpaceCounters.init_ok_disabled st h1 h2 h3 h4,
    ?_, ?_, ?_, ?_, ?_⟩
  · simp [PerfRegistry.lookupValue, List.find?]
  · simp [PerfRegistry.lookupValue, List.find?]
  · simp [PerfRegistry.lookupValue, List.find?]
  · simp [PerfRegistry.lookupValue, List.find?]
  · intro st2 h
    simp [CompressedClassSpaceCounters.update_performance_counters, h]

theorem C3_ccs_disabled_publishes_zeros_witness :
    stNoCcs.flags.UsePerfData = true
    ∧ stNoCcs.flags.UseCompressedKlassPointers = false
    ∧ stNoCcs.ccs_perf_counters = none
    ∧ 4 ≤ stNoCcs.registry.freeSlots
    ∧ (∃ st1,
        CompressedClassSpaceCounters.initialize_performance_counters stNoCcs = .ok st1
        ∧ st1.registry.lookupValue "compressedclassspace.minCapacity" = some 0
        ∧ st1.registry.lookupValue "compressedclassspace.capacity" = some 0
        ∧ st1.registry.lookupValue "compressedclassspace.maxCapacity" = some 0
        ∧ st1.registry.lookupValue "compressedclassspace.used" = some 0
        ∧ ∀ st2 : VMState, st2.flags.UseCompressedKlassPointers = false →
            CompressedClassSpaceCounters.update_performance_counters st2 = .ok st2) :=
  ⟨rfl, rfl, rfl, by decide,
   C3_ccs_disabled_publishes_zeros stNoCcs rfl rfl rfl (by decide)⟩

/-- Claim C5: after an initialization and a subsequent
`update_performance_counters` call at allocator snapshot `a` (performance
data enabled, counter set initialized), the registry publishes
`capacity = calculate_capacity(a)`, `maxCapacity = reserved_in_bytes(a)` and
`used = allocated_used_bytes(a)`, sampled at the time of the call and stored
without validation or clamping. -/
theorem C5_update_publishes_allocator_values (st : VMState) (a : MetaspaceAuxState)
    (h1 : st.flags.UsePerfData = true) (h2 : st.metaspace_perf_counters = none)
    (h3 : 4 ≤ st.registry.freeSlots) :
    ∃ st1 st2,
      MetaspaceCounters.initialize_performance_counters st = .ok st1
      ∧ MetaspaceCounters.update_performance_counters { st1 with aux := a } = .ok st2
      ∧ st2.registry.lookupValue "metaspace.capacity"
          = some (MetaspaceCounters.calculate_capacity a)
      ∧ st2.registry.lookupValue "metaspace.maxCapacity" = some a.reserved_in_bytes
      ∧ st2.registry.lookupValue "metaspace.used" = some a.allocated_used_bytes := by
  refine ⟨_, _, MetaspaceCounters.init_ok st h1 h2 h3,
    MetaspaceCounters.update_ok _ MetaspaceCounters.standard_set h1 rfl, ?_, ?_, ?_⟩
  · simp only [MetaspacePerfCounters.update, MetaspaceCounters.standard_set,
      PerfRegistry.lookupValue_set_value]
    simp [PerfRegistry.lookupValue, List.find?]
  · simp only [MetaspacePerfCounters.update, MetaspaceCounters.standard_set,
      PerfRegistry.lookupValue_set_value]
    simp [PerfRegistry.lookupValue, List.find?]
  · simp only [MetaspacePerfCounters.update, MetaspaceCounters.standard_set,
      PerfRegistry.lookupValue_set_value]
    simp [PerfRegistry.lookupValue, List.find?]

theorem C5_update_publishes_allocator_values_witness :
    stA.flags.UsePerfData = true
    ∧ stA.metaspace_perf_counters = none
    ∧ 4 ≤ stA.registry.freeSlots
    ∧ (∃ st1 st2,
        MetaspaceCounters.initialize_performance_counters stA = .ok st1
        ∧ MetaspaceCounters.update_performance_counters { st1 with aux := auxB } = .ok st2
        ∧ st2.registry.lookupValue "metaspace.capacity"
            = some (MetaspaceCounters.calculate_capacity auxB)
        ∧ st2.registry.lookupValue "metaspace.maxCapacity" = some auxB.reserved_in_bytes
        ∧ st2.registry.lookupValue "metaspace.used" = some auxB.allocated_used_bytes) :=
  ⟨rfl, rfl, by decide,
   C5_update_publishes_allocator_values stA auxB rfl rfl (by decide)⟩

/-- Claim C6: `minCapacity` is published once at construction — equal to the
allocator's `min_chunk_size` at initialization time — and no sequence of
`update_performance_counters` calls, at whatever intervening allocator
states, ever modifies it. -/
theorem C6_minCapacity_never_modified (st : VMState) (auxs : List MetaspaceAuxState)
    (h1 : st.flags.UsePerfData = true) (h2 : st.metaspace_perf_counters = none)
    (h3 : 4 ≤ st.registry.freeSlots) :
    ∃ st1 st2,
      MetaspaceCounters.initialize_performance_counters st = .ok st1
      ∧ MetaspaceCounters.run_updates st1 auxs = .ok st2
      ∧ st1.registry.lookupValue "metaspace.minCapacity" = some st.aux.min_chunk_size
      ∧ st2.registry.lookupValue "metaspace.minCapacity" = some st.aux.min_chunk_size := by
  obtain ⟨st2, hrun, hmin⟩ := MetaspaceCounters.run_updates_ok auxs
    { st with
      registry :=
        ⟨("metaspace.used", ⟨false, st.aux.allocated_used_bytes⟩) ::
         ("metaspace.maxCapacity", ⟨false, st.aux.reserved_in_bytes⟩) ::
         ("metaspace.capacity", ⟨false, MetaspaceCounters.calculate_capacity st.aux⟩) ::
         ("metaspace.minCapacity", ⟨true, st.aux.min_chunk_size⟩) :: st.registry.entries,
         st.registry.freeSlots - 4⟩,
      metaspace_perf_counters := some MetaspaceCounters.standard_set }
    h1 rfl
  refine ⟨_, st2, MetaspaceCounters.init_ok st h1 h2 h3, hrun, ?_, ?_⟩
  · simp [PerfRegistry.lookupValue, List.find?]
  · rw [hmin]
    simp [PerfRegistry.lookupValue, List.find?]

theorem C6_minCapacity_never_modified_witness :
    stA.flags.UsePerfData = true
    ∧ stA.metaspace_perf_counters = none
    ∧ 4 ≤ stA.registry.freeSlots
    ∧ (∃ st1 st2,
        MetaspaceCounters.initialize_performance_counters stA = .ok st1
        ∧ MetaspaceCounters.run_updates st1 [auxB, auxA] = .ok st2
        ∧ st1.registry.lookupValue "metaspace.minCapacity" = some stA.aux.min_chunk_size
        ∧ st2.registry.lookupValue "metaspace.minCapacity"
            = some stA.aux.min_chunk_size) :=
  ⟨rfl, rfl, by decide,
   C6_minCapacity_never_modified stA [auxB, auxA] rfl rfl (by decide)⟩

/-- Claim C9: with performance data enabled and the counter set initialized,
two successive `update_performance_counters` calls under an unchanged
allocator state both succeed and the second leaves every published value
exactly as the first left it. -/
theorem C9_update_idempotent (st : VMState)
    (h1 : st.flags.UsePerfData = true)
    (h2 : st.metaspace_perf_counters = some MetaspaceCounters.standard_set) :
    ∃ st1 st2,
      MetaspaceCounters.update_performance_counters st = .ok st1
      ∧ MetaspaceCounters.update_performance_counters st1 = .ok st2
      ∧ ∀ p, st2.registry.lookupValue p = st1.registry.lookupValue p := by
  refine ⟨_, _, MetaspaceCounters.update_ok st MetaspaceCounters.standard_set h1 h2,
    MetaspaceCounters.update_ok _ MetaspaceCounters.standard_set h1 h2, ?_⟩
  intro p
  simp only [MetaspacePerfCounters.update, MetaspaceCounters.standard_set,
    PerfRegistry.lookupValue_set_value]
  by_cases hu : p = "metaspace.used"
  · subst hu; simp [Option.map_map, Function.comp_def]
  · by_cases hm : p = "metaspace.maxCapacity"
    · subst hm; simp [Option.map_map, Function.comp_def]
    · by_cases hc : p = "metaspace.capacity"
      · subst hc; simp [Option.map_map, Function.comp_def]
      · simp [hu, hm, hc]

theorem C9_update_idempotent_witness :
    stBoth.flags.UsePerfData = true
    ∧ stBoth.metaspace_perf_counters = some MetaspaceCounters.standard_set
    ∧ (∃ st1 st2,
        MetaspaceCounters.update_performance_counters stBoth = .ok st1
        ∧ MetaspaceCounters.update_performance_counters st1 = .ok st2
        ∧ ∀ p, st2.registry.lookupValue p = st1.registry.lookupValue p) :=
  ⟨rfl, rfl, C9_update_idempotent stBoth rfl rfl⟩
